import Mathlib

/-!
Verification development for the `investing-agent` repository.

The Python sources are shallowly embedded as Lean definitions:

* `src/storage.py`   → `Storage` with `is_processed` / `mark_processed` /
  `has_alert` / `mark_alert_sent` (the SQLite tables become lists of records;
  `INSERT OR IGNORE` on a primary key becomes an insert guarded by a
  presence check; the wall-clock timestamp becomes an explicit argument).
* `src/alerts.py`    → `IMPACT_RANK`, `should_alert`, `format_alert`.
* `src/filters.py`   → `BOILERPLATE_PHRASES`, `prefilter` (Python `p in s`
  substring test is `pyIn`; `str.lower` is `pyLower`; `len` is `pyLen`).
* `src/run_monitor.py` → `FORM_MIN_CHARS`, `minCharsFor`, and the per-filing
  loop body of `process_company` as `processFiling`, with the whole
  newest-to-oldest scan as `process_company`.  External collaborators
  (`extract_text`, `analyze_filing`, `send_email`, the debug re-fetch of the
  primary document) are oracles in an `Env`; every call to one of them is
  recorded as an `Event` so that claims about which collaborators get
  invoked can be stated.  Logging and printing are pure I/O and are dropped.
* `src/llm.py`       → the retry-then-fallback control flow of
  `analyze_filing` as `analyze_filing` over an `LlmEnv` oracle (HTTP attempt
  outcomes, the assembled streaming body, and `json.loads` are the oracle;
  `_extract_first_json_object` is embedded faithfully as
  `extract_first_json_object`); each attempt, backoff sleep, streaming
  fallback and balanced-object scan is recorded as an `LlmStep`.
-/

set_option maxRecDepth 8000

namespace InvestingAgent

/-- One row of the `processed_filings` table of `src/storage.py`
(columns `accession_number, cik, form_type, filing_date, processed_at`). -/
structure ProcessedRecord where
  accession_number : String
  cik : String
  form_type : Option String
  filing_date : Option String
  processed_at : String
deriving DecidableEq

/-- One row of the `alerts_sent` table of `src/storage.py`
(columns `accession_number, sent_at, impact_level, meta`); the JSON metadata
blob is modelled as a key-value list. -/
structure AlertRecord where
  accession_number : String
  sent_at : String
  impact_level : String
  meta : List (String × String)
deriving DecidableEq

/-- The SQLite database owned by `Storage` in `src/storage.py`: the two
record tables, each keyed by `accession_number` (the primary key). -/
structure Storage where
  processed_filings : List ProcessedRecord
  alerts_sent : List AlertRecord
deriving DecidableEq

/-- A freshly created database: both tables empty. -/
def emptyStorage : Storage := ⟨[], []⟩

/-- `Storage.is_processed` (src/storage.py:39-45): true iff a row of
`processed_filings` has this accession number. -/
def Storage.is_processed (st : Storage) (accession_number : String) : Bool :=
  st.processed_filings.any (fun r => r.accession_number == accession_number)

/-- `Storage.mark_processed` (src/storage.py:47-53): `INSERT OR IGNORE` into
`processed_filings` — a no-op when a row with this primary key exists,
otherwise an append of the new row.  `datetime.utcnow().isoformat()` is the
explicit `now` argument. -/
def Storage.mark_processed (st : Storage) (accession_number cik : String)
    (form_type filing_date : Option String) (now : String) : Storage :=
  if st.is_processed accession_number then st
  else { st with processed_filings :=
          st.processed_filings ++ [⟨accession_number, cik, form_type, filing_date, now⟩] }

/-- `Storage.has_alert` (src/storage.py:55-58): true iff a row of
`alerts_sent` has this accession number. -/
def Storage.has_alert (st : Storage) (accession_number : String) : Bool :=
  st.alerts_sent.any (fun r => r.accession_number == accession_number)

/-- `Storage.mark_alert_sent` (src/storage.py:60-66): `INSERT OR IGNORE`
into `alerts_sent`, same idempotent-insert semantics as `mark_processed`. -/
def Storage.mark_alert_sent (st : Storage) (accession_number : String)
    (impact_level : String) (meta : List (String × String)) (now : String) : Storage :=
  if st.has_alert accession_number then st
  else { st with alerts_sent :=
          st.alerts_sent ++ [⟨accession_number, now, impact_level, meta⟩] }

/-- `IMPACT_RANK` from src/alerts.py:4, the dict as an association list. -/
def IMPACT_RANK : List (String × Nat) :=
  [("None", 0), ("Low", 1), ("Medium", 2), ("High", 3)]

/-- Python `IMPACT_RANK.get(key, default)`. -/
def impactRankGet (key : String) (default : Nat) : Nat :=
  match IMPACT_RANK.lookup key with
  | some r => r
  | none => default

/-- `ALERT_MIN_IMPACT` from src/config.py:12. -/
def ALERT_MIN_IMPACT : String := "Medium"

/-- The classifier result dict consumed by `should_alert` / `format_alert`.
Each field is `Option`-valued because the Python code reads every key with
`dict.get` and a default. -/
structure Analysis where
  summary_bullets : Option (List String)
  event_type : Option String
  impact_level : Option String
  impact_reasoning : Option String
deriving DecidableEq

/-- `should_alert` (src/alerts.py:6-8):
`IMPACT_RANK.get(analysis.get("impact_level", "None"), 0) >=
 IMPACT_RANK.get(ALERT_MIN_IMPACT, 2)`. -/
def should_alert (analysis : Analysis) : Bool :=
  decide (impactRankGet (analysis.impact_level.getD "None") 0 ≥
          impactRankGet ALERT_MIN_IMPACT 2)

/-- One filing dict as produced by `fetch_filings` (src/edgar.py) and
consumed by `process_company`; `form_type` and `filing_date` are read with
`dict.get` in the orchestrator, hence `Option`-valued. -/
structure Filing where
  accession_number : String
  form_type : Option String
  filing_date : Option String
  primary_doc_url : String
deriving DecidableEq

/-- `format_alert` (src/alerts.py:10-23); Python renders a `None`
`form_type` inside an f-string as the text `"None"`. -/
def format_alert (symbol : String) (filing : Filing) (analysis : Analysis) :
    String × String :=
  let subject := "[Market Alert] " ++ symbol ++ " – " ++
    (analysis.impact_level.getD "Unknown") ++ " Impact " ++
    (match filing.form_type with | some s => s | none => "None")
  let body_lines :=
    ["Event: " ++ (analysis.event_type.getD "Other"),
     "Impact: " ++ (analysis.impact_level.getD "Unknown"),
     "",
     "Summary:"]
    ++ ((analysis.summary_bullets.getD []).take 5).map (fun b => "- " ++ b)
    ++ ["", "Reasoning:", analysis.impact_reasoning.getD ""]
  (subject, String.intercalate "\n" body_lines)

/-- `BOILERPLATE_PHRASES` from src/filters.py:3-5. -/
def BOILERPLATE_PHRASES : List String :=
  ["forward-looking statements"]

/-- Python `len` on a string (number of code points). -/
def pyLen (s : String) : Nat := s.data.length

/-- Python `str.lower`. -/
def pyLower (s : String) : String := String.mk (s.data.map Char.toLower)

/-- Does `pat` occur at the start of `s`? (helper for the Python `in` test) -/
def startsWithChars : List Char → List Char → Bool
  | [], _ => true
  | _ :: _, [] => false
  | p :: ps, c :: cs => p == c && startsWithChars ps cs

/-- Does `pat` occur anywhere in the character list? -/
def containsSubChars (pat : List Char) : List Char → Bool
  | [] => startsWithChars pat []
  | c :: cs => startsWithChars pat (c :: cs) || containsSubChars pat cs

/-- Python `pat in s` substring test. -/
def pyIn (pat s : String) : Bool := containsSubChars pat.data s.data

/-- The boilerplate scan inside `prefilter` (src/filters.py:21-24): the text
is lowered once and each configured phrase is tested as a substring. -/
def hasBoilerplate (t : String) : Bool :=
  BOILERPLATE_PHRASES.any (fun p => pyIn p (pyLower t))

/-- `prefilter` (src/filters.py:10-25).  The text is `Option`-valued because
Python's `if not text` guard also covers `None`; `none` and the empty string
are both rejected, then the length gate, then the boilerplate scan. -/
def prefilter (text : Option String) (min_chars : Nat) : Bool :=
  match text with
  | none => false
  | some t =>
    if pyLen t = 0 then false
    else if pyLen t < min_chars then false
    else if hasBoilerplate t = true then false
    else true

/-- `FORM_MIN_CHARS` from src/run_monitor.py:53-64, the dict as an
association list. -/
def FORM_MIN_CHARS : List (String × Nat) :=
  [("4", 300), ("3", 300), ("5", 300), ("8-K", 800), ("10-Q", 2000),
   ("10-K", 3000), ("13F-HR", 1000), ("S-1", 2000), ("SC 13G", 800),
   ("SC 13D", 800)]

/-- Python `str.upper`. -/
def pyUpper (s : String) : String := String.mk (s.data.map Char.toUpper)

/-- Whitespace test for `str.strip`. -/
def isSpaceChar (c : Char) : Bool :=
  c == ' ' || c == '\t' || c == '\n' || c == '\r'

/-- Python `str.strip`: drop whitespace from both ends. -/
def pyStrip (s : String) : String :=
  String.mk (((s.data.dropWhile isSpaceChar).reverse.dropWhile isSpaceChar).reverse)

/-- `(f.get("form_type") or "").upper().strip()` (src/run_monitor.py:66). -/
def normalizeForm (form_type : Option String) : String :=
  pyStrip (pyUpper (form_type.getD ""))

/-- `FORM_MIN_CHARS.get(form, 1500)` (src/run_monitor.py:67): the per-form
minimum length used by the orchestrator, defaulting to 1500. -/
def minCharsFor (form_type : Option String) : Nat :=
  (FORM_MIN_CHARS.lookup (normalizeForm form_type)).getD 1500

/-- A record of one invocation of an external collaborator made by
`process_company`, tagged with the accession number of the filing being
handled (and the URL fetched, where one is fetched). -/
inductive Event where
  | extractCall (acc url : String)
  | debugFetch (acc url : String)
  | classifyCall (acc : String)
  | sendCall (acc : String)
deriving DecidableEq

/-- The accession number an event concerns. -/
def Event.acc : Event → String
  | .extractCall a _ => a
  | .debugFetch a _ => a
  | .classifyCall a => a
  | .sendCall a => a

/-- The external collaborators of `process_company`, as oracles.
`extract` is `extract_text` (keyed by the document URL; `Except.error` is a
raised exception), `classify` is `analyze_filing` (keyed by the extracted
text), `send` is `send_email` (keyed by subject and body), `debugSave` is
the raw-response re-fetch-and-save block of src/run_monitor.py:78-87, and
`now` is `datetime.utcnow().isoformat()`. -/
structure Env where
  extract : String → Except Unit String
  classify : String → Except Unit Analysis
  send : String → String → Except Unit Unit
  debugSave : String → Except Unit Unit
  now : String

/-- The body of the `for f in filings` loop of `process_company`
(src/run_monitor.py:42-130) for one filing that passed the dedupe check:
extraction (failure → skip, nothing written), the unconditional debug
re-fetch of the same URL (recorded as a `debugFetch` event; its outcome is
never consulted because src/run_monitor.py:86-87 catches any exception and
only prints), the prefilter gate (reject → `mark_processed`),
classification (failure → `mark_processed`), the alert decision, sending
(failure caught → no `mark_alert_sent`), and the final `mark_processed`. -/
def processFiling (env : Env) (symbol cik : String) (f : Filing) (st : Storage) :
    Storage × List Event :=
  match env.extract f.primary_doc_url with
  | Except.error _ => (st, [Event.extractCall f.accession_number f.primary_doc_url])
  | Except.ok text =>
    if prefilter (some text) (minCharsFor f.form_type) = false then
      (st.mark_processed f.accession_number cik f.form_type f.filing_date env.now,
        [Event.extractCall f.accession_number f.primary_doc_url,
         Event.debugFetch f.accession_number f.primary_doc_url])
    else
      match env.classify text with
      | Except.error _ =>
        (st.mark_processed f.accession_number cik f.form_type f.filing_date env.now,
          [Event.extractCall f.accession_number f.primary_doc_url,
           Event.debugFetch f.accession_number f.primary_doc_url,
           Event.classifyCall f.accession_number])
      | Except.ok analysis =>
        if should_alert analysis && !(st.has_alert f.accession_number) then
          match env.send (format_alert symbol f analysis).1 (format_alert symbol f analysis).2 with
          | Except.ok _ =>
            ((st.mark_alert_sent f.accession_number (analysis.impact_level.getD "None")
                [("symbol", symbol)] env.now).mark_processed
                f.accession_number cik f.form_type f.filing_date env.now,
              [Event.extractCall f.accession_number f.primary_doc_url,
               Event.debugFetch f.accession_number f.primary_doc_url,
               Event.classifyCall f.accession_number,
               Event.sendCall f.accession_number])
          | Except.error _ =>
            (st.mark_processed f.accession_number cik f.form_type f.filing_date env.now,
              [Event.extractCall f.accession_number f.primary_doc_url,
               Event.debugFetch f.accession_number f.primary_doc_url,
               Event.classifyCall f.accession_number,
               Event.sendCall f.accession_number])
        else
          (st.mark_processed f.accession_number cik f.form_type f.filing_date env.now,
            [Event.extractCall f.accession_number f.primary_doc_url,
             Event.debugFetch f.accession_number f.primary_doc_url,
             Event.classifyCall f.accession_number])

/-- `process_company` (src/run_monitor.py:25-130) applied to the
newest-to-oldest filings list returned by `fetch_filings`: scan the list,
break at the first already-processed accession number
(src/run_monitor.py:36-40), otherwise run `processFiling` and continue.
Returns the final store and the ordered log of collaborator invocations. -/
def process_company (env : Env) (symbol cik : String) :
    List Filing → Storage → Storage × List Event
  | [], st => (st, [])
  | f :: rest, st =>
    if st.is_processed f.accession_number then (st, [])
    else
      ((process_company env symbol cik rest (processFiling env symbol cik f st).1).1,
       (processFiling env symbol cik f st).2 ++
         (process_company env symbol cik rest (processFiling env symbol cik f st).1).2)

/-- The Dedupe Store states reachable by running the orchestrator: the empty
store just after table creation, and anything obtained from a reachable
state by completing one filing iteration or one whole `process_company`
pass (with arbitrary collaborator behaviour). -/
inductive ReachableStore : Storage → Prop where
  | init : ReachableStore emptyStorage
  | filingStep (env : Env) (symbol cik : String) (f : Filing) (st : Storage) :
      ReachableStore st → ReachableStore (processFiling env symbol cik f st).1
  | companyStep (env : Env) (symbol cik : String) (l : List Filing) (st : Storage) :
      ReachableStore st → ReachableStore (process_company env symbol cik l st).1

/-- `OLLAMA_CALL_RETRIES` default from src/llm.py:14. -/
def OLLAMA_CALL_RETRIES : Nat := 3

/-- Outcome of one non-streaming POST attempt inside `analyze_filing`
(src/llm.py:96-131): a raised `RequestException` (connection failure or bad
HTTP status), a 2xx response that yields no message content (which makes
the loop `break` to the streaming fallback), or extracted message content. -/
inductive AttemptResult where
  | reqError
  | okNoContent
  | okContent (content : String)
deriving DecidableEq

/-- A step of the retry/fallback protocol of `analyze_filing`, in the order
performed: a numbered non-streaming attempt, a `time.sleep` backoff of the
given number of seconds, the streaming fallback request, or the balanced
JSON-object scan over the assembled streamed text. -/
inductive LlmStep where
  | nonStreamAttempt (i : Nat)
  | backoff (seconds : Nat)
  | streamAttempt
  | scanForJson
deriving DecidableEq

/-- The distinct raise sites of `analyze_filing`: the `RuntimeError` for
single-shot content that is not valid JSON (src/llm.py:129), and the
wrapped `RuntimeError`s of the streaming path (src/llm.py:211, 215, 221). -/
inductive LlmError where
  | nonJsonContent
  | streamRequestFailed
  | assembledParseFailed
  | noUsableContent
deriving DecidableEq

/-- The network and JSON oracles of `analyze_filing`: the outcome of the
i-th non-streaming attempt, the assembled body of the streaming fallback
(`Except.error` when the streaming request or iteration raises), and
`json.loads` restricted to the expected assessment shape (`none` when the
string is not valid JSON of that shape). -/
structure LlmEnv where
  attempt : Nat → AttemptResult
  streamResult : Except Unit String
  decode : String → Option Analysis

/-- Result of the non-streaming `for attempt in range(1, max_attempts + 1)`
loop: a decoded assessment was returned, the `RuntimeError` for non-JSON
content was raised, or control fell through to the streaming fallback. -/
inductive NonStreamOutcome where
  | returned (a : Analysis)
  | raisedNonJson
  | fallback
deriving DecidableEq

/-- Handling of extracted single-shot content (src/llm.py:124-129):
`json.loads(content)` is returned on success; a parse failure raises the
non-JSON-content `RuntimeError` at once. -/
def contentOutcome (env : LlmEnv) (c : String) : NonStreamOutcome :=
  match env.decode c with
  | some a => NonStreamOutcome.returned a
  | none => NonStreamOutcome.raisedNonJson

/-- The non-streaming retry loop of `analyze_filing` (src/llm.py:95-149).
First argument: attempts remaining; second: the current 1-based attempt
number.  A `RequestException` sleeps `1 * attempt` seconds and retries
while attempts remain; content is handled by `contentOutcome`; absent
content breaks to the fallback. -/
def nonStreamLoop (env : LlmEnv) : Nat → Nat → List LlmStep × NonStreamOutcome
  | 0, _ => ([], NonStreamOutcome.fallback)
  | remaining + 1, i =>
    match env.attempt i with
    | AttemptResult.okContent c => ([LlmStep.nonStreamAttempt i], contentOutcome env c)
    | AttemptResult.okNoContent => ([LlmStep.nonStreamAttempt i], NonStreamOutcome.fallback)
    | AttemptResult.reqError =>
      match remaining with
      | 0 => ([LlmStep.nonStreamAttempt i], NonStreamOutcome.fallback)
      | r + 1 =>
        (LlmStep.nonStreamAttempt i :: LlmStep.backoff (1 * i) ::
          (nonStreamLoop env (r + 1) (i + 1)).1,
         (nonStreamLoop env (r + 1) (i + 1)).2)

/-- The opening-brace, closing-brace, double-quote and backslash characters
used by the balanced-object scan. -/
def lbraceChar : Char := Char.ofNat 123

/-- Closing brace. -/
def rbraceChar : Char := Char.ofNat 125

/-- Double quote. -/
def dquoteChar : Char := Char.ofNat 34

/-- Backslash. -/
def bslashChar : Char := Char.ofNat 92

/-- The suffix of the character list starting at its first opening brace
(`s.find("{")` of src/llm.py:70). -/
def fromFirstLbrace : List Char → Option (List Char)
  | [] => none
  | c :: cs => if c == lbraceChar then some (c :: cs) else fromFirstLbrace cs

/-- The character scan of `_extract_first_json_object` (src/llm.py:73-93):
walk the characters tracking string/escape state and brace depth, returning
the slice up to the brace that balances the first one. -/
def scanJsonObject : List Char → Bool → Bool → Nat → List Char → Option (List Char)
  | [], _, _, _, _ => none
  | ch :: rest, in_string, escape, depth, acc =>
    let in_string2 := if ch == dquoteChar && !escape then !in_string else in_string
    if ch == bslashChar && !escape then
      scanJsonObject rest in_string2 true depth (acc ++ [ch])
    else if in_string2 then
      scanJsonObject rest in_string2 false depth (acc ++ [ch])
    else if ch == lbraceChar then
      scanJsonObject rest in_string2 false (depth + 1) (acc ++ [ch])
    else if ch == rbraceChar then
      if depth = 1 then some (acc ++ [ch])
      else scanJsonObject rest in_string2 false (depth - 1) (acc ++ [ch])
    else
      scanJsonObject rest in_string2 false depth (acc ++ [ch])

/-- `_extract_first_json_object` (src/llm.py:65-93): the first balanced
JSON object embedded in the string, or `none`. -/
def extract_first_json_object (s : String) : Option String :=
  if pyLen s = 0 then none
  else
    match fromFirstLbrace s.data with
    | none => none
    | some tailChars => (scanJsonObject tailChars false false 0 []).map String.mk

/-- The retry-then-fallback control flow of `analyze_filing`
(src/llm.py:36-223) over the `LlmEnv` oracles, recording the protocol steps
taken.  After the non-streaming loop: a decoded value is returned; the
non-JSON-content `RuntimeError` propagates (it is not a `RequestException`,
so nothing catches it before the caller); otherwise the streaming fallback
runs — a failed streaming request raises, an empty assembled body raises
`no usable content`, a decodable body is returned, and an undecodable body
goes through the balanced-object scan before the final raise. -/
def analyze_filing (env : LlmEnv) (maxAttempts : Nat) :
    List LlmStep × Except LlmError Analysis :=
  match (nonStreamLoop env maxAttempts 1).2 with
  | NonStreamOutcome.returned a => ((nonStreamLoop env maxAttempts 1).1, Except.ok a)
  | NonStreamOutcome.raisedNonJson =>
    ((nonStreamLoop env maxAttempts 1).1, Except.error LlmError.nonJsonContent)
  | NonStreamOutcome.fallback =>
    match env.streamResult with
    | Except.error _ =>
      ((nonStreamLoop env maxAttempts 1).1 ++ [LlmStep.streamAttempt],
        Except.error LlmError.streamRequestFailed)
    | Except.ok assembled =>
      if pyLen assembled = 0 then
        ((nonStreamLoop env maxAttempts 1).1 ++ [LlmStep.streamAttempt],
          Except.error LlmError.noUsableContent)
      else
        match env.decode assembled with
        | some a =>
          ((nonStreamLoop env maxAttempts 1).1 ++ [LlmStep.streamAttempt], Except.ok a)
        | none =>
          match extract_first_json_object assembled with
          | some ex =>
            match env.decode ex with
            | some a =>
              ((nonStreamLoop env maxAttempts 1).1 ++
                [LlmStep.streamAttempt, LlmStep.scanForJson], Except.ok a)
            | none =>
              ((nonStreamLoop env maxAttempts 1).1 ++
                [LlmStep.streamAttempt, LlmStep.scanForJson],
                Except.error LlmError.assembledParseFailed)
          | none =>
            ((nonStreamLoop env maxAttempts 1).1 ++
              [LlmStep.streamAttempt, LlmStep.scanForJson],
              Except.error LlmError.assembledParseFailed)

/-- Is a protocol step a non-streaming attempt? -/
def isAttemptStep : LlmStep → Bool
  | LlmStep.nonStreamAttempt _ => true
  | _ => false

/-- Number of non-streaming attempts in a protocol trace. -/
def countAttempts (steps : List LlmStep) : Nat := steps.countP isAttemptStep

/-- The backoff durations of a protocol trace, in order. -/
def backoffs (steps : List LlmStep) : List Nat :=
  steps.filterMap (fun s => match s with | LlmStep.backoff w => some w | _ => none)

/-- `incrFrom lo l` holds when `l` is strictly increasing and its first
element is at least `lo`. -/
def incrFrom (lo : Nat) : List Nat → Bool
  | [] => true
  | a :: rest => decide (lo ≤ a) && incrFrom (a + 1) rest

/-- The protocol trace of the non-streaming loop when every attempt raises
a `RequestException`: all `maxAttempts` numbered attempts, interleaved with
the `1 * attempt`-second backoffs. -/
def allErrTrace : Nat → Nat → List LlmStep
  | 0, _ => []
  | remaining + 1, i =>
    match remaining with
    | 0 => [LlmStep.nonStreamAttempt i]
    | r + 1 => LlmStep.nonStreamAttempt i :: LlmStep.backoff (1 * i) ::
        allErrTrace (r + 1) (i + 1)

/-- Modelled from the spec's words (§4.4 and §8 of spec.md), for comparison
with the code's `should_alert`: the rank of an impact level under the total
order None(0) < Low(1) < Medium(2) < High(3), with a missing or
unrecognized level ranking as None. -/
def impactRank_spec (level : Option String) : Nat :=
  match level with
  | none => 0
  | some s =>
    if s = "High" then 3
    else if s = "Medium" then 2
    else if s = "Low" then 1
    else 0

/-- Modelled from the spec's words: alert iff the assessment's rank is at
least the rank of the configured minimum threshold. -/
def should_alert_spec (analysis : Analysis) : Bool :=
  decide (impactRank_spec analysis.impact_level ≥ impactRank_spec (some ALERT_MIN_IMPACT))

/-! ### Helper lemmas about the Dedupe Store -/

theorem is_processed_eq_true_iff (st : Storage) (x : String) :
    st.is_processed x = true ↔ ∃ p ∈ st.processed_filings, p.accession_number = x := by
  simp [Storage.is_processed, List.any_eq_true]

theorem has_alert_eq_true_iff (st : Storage) (x : String) :
    st.has_alert x = true ↔ ∃ r ∈ st.alerts_sent, r.accession_number = x := by
  simp [Storage.has_alert, List.any_eq_true]

theorem is_processed_false_of_countP_zero (st : Storage) (x : String)
    (h : st.processed_filings.countP (fun r => r.accession_number == x) = 0) :
    st.is_processed x = false := by
  rw [← Bool.not_eq_true, is_processed_eq_true_iff]
  rintro ⟨p, hp, he⟩
  have h2 := List.countP_eq_zero.mp h p hp
  simp [he] at h2

theorem has_alert_false_of_countP_zero (st : Storage) (x : String)
    (h : st.alerts_sent.countP (fun r => r.accession_number == x) = 0) :
    st.has_alert x = false := by
  rw [← Bool.not_eq_true, has_alert_eq_true_iff]
  rintro ⟨r, hr, he⟩
  have h2 := List.countP_eq_zero.mp h r hr
  simp [he] at h2

theorem mark_processed_already (st : Storage) {acc : String} (cik : String)
    (ft fd : Option String) (now : String) (h : st.is_processed acc = true) :
    st.mark_processed acc cik ft fd now = st := by
  simp [Storage.mark_processed, h]

theorem mark_processed_not_yet (st : Storage) {acc : String} (cik : String)
    (ft fd : Option String) (now : String) (h : st.is_processed acc = false) :
    st.mark_processed acc cik ft fd now =
      { st with processed_filings := st.processed_filings ++ [⟨acc, cik, ft, fd, now⟩] } := by
  simp [Storage.mark_processed, h]

theorem mark_alert_sent_already (st : Storage) {acc : String} (lvl : String)
    (m : List (String × String)) (now : String) (h : st.has_alert acc = true) :
    st.mark_alert_sent acc lvl m now = st := by
  simp [Storage.mark_alert_sent, h]

theorem mark_alert_sent_not_yet (st : Storage) {acc : String} (lvl : String)
    (m : List (String × String)) (now : String) (h : st.has_alert acc = false) :
    st.mark_alert_sent acc lvl m now =
      { st with alerts_sent := st.alerts_sent ++ [⟨acc, now, lvl, m⟩] } := by
  simp [Storage.mark_alert_sent, h]

theorem mark_processed_alerts_sent (st : Storage) (acc cik : String)
    (ft fd : Option String) (now : String) :
    (st.mark_processed acc cik ft fd now).alerts_sent = st.alerts_sent := by
  unfold Storage.mark_processed
  split <;> rfl

theorem mark_alert_sent_processed_filings (st : Storage) (acc lvl : String)
    (m : List (String × String)) (now : String) :
    (st.mark_alert_sent acc lvl m now).processed_filings = st.processed_filings := by
  unfold Storage.mark_alert_sent
  split <;> rfl

theorem has_alert_mark_processed (st : Storage) (acc cik : String)
    (ft fd : Option String) (now x : String) :
    (st.mark_processed acc cik ft fd now).has_alert x = st.has_alert x := by
  unfold Storage.has_alert
  rw [mark_processed_alerts_sent]

theorem is_processed_mark_alert_sent (st : Storage) (acc lvl : String)
    (m : List (String × String)) (now x : String) :
    (st.mark_alert_sent acc lvl m now).is_processed x = st.is_processed x := by
  unfold Storage.is_processed
  rw [mark_alert_sent_processed_filings]

theorem is_processed_mark_processed_self (st : Storage) (acc cik : String)
    (ft fd : Option String) (now : String) :
    (st.mark_processed acc cik ft fd now).is_processed acc = true := by
  by_cases h : st.is_processed acc = true
  · rw [mark_processed_already st cik ft fd now h]; exact h
  · rw [Bool.not_eq_true] at h
    rw [mark_processed_not_yet st cik ft fd now h]
    simp [Storage.is_processed, List.any_append]

theorem is_processed_mark_processed_mono (st : Storage) (acc cik : String)
    (ft fd : Option String) (now x : String) (h : st.is_processed x = true) :
    (st.mark_processed acc cik ft fd now).is_processed x = true := by
  unfold Storage.mark_processed
  split
  · exact h
  · unfold Storage.is_processed at h ⊢
    simp only [List.any_append, Bool.or_eq_true]
    exact Or.inl h

theorem is_processed_mark_processed_cases (st : Storage) (acc cik : String)
    (ft fd : Option String) (now x : String)
    (h : (st.mark_processed acc cik ft fd now).is_processed x = true) :
    st.is_processed x = true ∨ x = acc := by
  unfold Storage.mark_processed at h
  split at h
  · exact Or.inl h
  · unfold Storage.is_processed at h
    simp only [List.any_append, Bool.or_eq_true] at h
    rcases h with h | h
    · exact Or.inl h
    · simp [beq_iff_eq] at h
      exact Or.inr h.symm

theorem has_alert_mark_alert_sent_self (st : Storage) (acc lvl : String)
    (m : List (String × String)) (now : String) :
    (st.mark_alert_sent acc lvl m now).has_alert acc = true := by
  by_cases h : st.has_alert acc = true
  · rw [mark_alert_sent_already st lvl m now h]; exact h
  · rw [Bool.not_eq_true] at h
    rw [mark_alert_sent_not_yet st lvl m now h]
    simp [Storage.has_alert, List.any_append]

theorem mem_alerts_mark_alert_sent (st : Storage) (acc lvl : String)
    (m : List (String × String)) (now : String) (r : AlertRecord)
    (h : r ∈ (st.mark_alert_sent acc lvl m now).alerts_sent) :
    r ∈ st.alerts_sent ∨ r.accession_number = acc := by
  unfold Storage.mark_alert_sent at h
  split at h
  · exact Or.inl h
  · simp only [List.mem_append, List.mem_singleton] at h
    rcases h with h | rfl
    · exact Or.inl h
    · exact Or.inr rfl

/-- Claim C1: the Dedupe Store is a write-once set per record table.
Starting from any store holding no `ProcessedRecord` for `x` (the state
before any `mark_processed(x, ...)` call) and no `AlertRecord` for `x`:
`is_processed x` is false; after one `mark_processed(x, ...)` it is true;
a second `mark_processed(x, ...)` with any arguments is a silent no-op (it
returns the same store, never an error) so exactly one `ProcessedRecord`
for `x` remains; likewise for `mark_alert_sent` / `has_alert`, and
`has_alert x` is true exactly when an `AlertRecord` with id `x` exists. -/
theorem C1_dedupe_write_once (st : Storage) (x cikA cikB nowA nowB lvlA lvlB : String)
    (ftA ftB fdA fdB : Option String) (mA mB : List (String × String))
    (hp : st.processed_filings.countP (fun r => r.accession_number == x) = 0)
    (ha : st.alerts_sent.countP (fun r => r.accession_number == x) = 0) :
    st.is_processed x = false
    ∧ (st.mark_processed x cikA ftA fdA nowA).is_processed x = true
    ∧ ((st.mark_processed x cikA ftA fdA nowA).mark_processed x cikB ftB fdB nowB)
        = st.mark_processed x cikA ftA fdA nowA
    ∧ ((st.mark_processed x cikA ftA fdA nowA).mark_processed x cikB ftB fdB
        nowB).processed_filings.countP (fun r => r.accession_number == x) = 1
    ∧ st.has_alert x = false
    ∧ (st.mark_alert_sent x lvlA mA nowA).has_alert x = true
    ∧ ((st.mark_alert_sent x lvlA mA nowA).mark_alert_sent x lvlB mB nowB)
        = st.mark_alert_sent x lvlA mA nowA
    ∧ ((st.mark_alert_sent x lvlA mA nowA).mark_alert_sent x lvlB mB
        nowB).alerts_sent.countP (fun r => r.accession_number == x) = 1
    ∧ (st.has_alert x = true ↔ ∃ r ∈ st.alerts_sent, r.accession_number = x)
    ∧ ((st.mark_alert_sent x lvlA mA nowA).has_alert x = true ↔
        ∃ r ∈ (st.mark_alert_sent x lvlA mA nowA).alerts_sent, r.accession_number = x) := by
  have hp0 : st.is_processed x = false := is_processed_false_of_countP_zero st x hp
  have ha0 : st.has_alert x = false := has_alert_false_of_countP_zero st x ha
  have hmark1 := mark_processed_not_yet st cikA ftA fdA nowA hp0
  have hproc1 : (st.mark_processed x cikA ftA fdA nowA).is_processed x = true :=
    is_processed_mark_processed_self st x cikA ftA fdA nowA
  have hnoop := mark_processed_already (st.mark_processed x cikA ftA fdA nowA)
    cikB ftB fdB nowB hproc1
  have hcount : ((st.mark_processed x cikA ftA fdA nowA).mark_processed x cikB ftB fdB
      nowB).processed_filings.countP (fun r => r.accession_number == x) = 1 := by
    rw [hnoop, hmark1]
    simp [List.countP_append, hp]
  have halert1 := mark_alert_sent_not_yet st lvlA mA nowA ha0
  have hhas1 : (st.mark_alert_sent x lvlA mA nowA).has_alert x = true :=
    has_alert_mark_alert_sent_self st x lvlA mA nowA
  have hnoopA := mark_alert_sent_already (st.mark_alert_sent x lvlA mA nowA)
    lvlB mB nowB hhas1
  have hcountA : ((st.mark_alert_sent x lvlA mA nowA).mark_alert_sent x lvlB mB
      nowB).alerts_sent.countP (fun r => r.accession_number == x) = 1 := by
    rw [hnoopA, halert1]
    simp [List.countP_append, ha]
  exact ⟨hp0, hproc1, hnoop, hcount, ha0, hhas1, hnoopA, hcountA,
    has_alert_eq_true_iff st x,
    has_alert_eq_true_iff (st.mark_alert_sent x lvlA mA nowA) x⟩

/-- Concrete instance of C1 at the empty store and id `acc-1`. -/
theorem C1_dedupe_write_once_witness :
    (emptyStorage.processed_filings.countP (fun r => r.accession_number == "acc-1") = 0
      ∧ emptyStorage.alerts_sent.countP (fun r => r.accession_number == "acc-1") = 0)
    ∧ emptyStorage.is_processed "acc-1" = false
    ∧ (emptyStorage.mark_processed "acc-1" "0001" (some "8-K") (some "2024-01-01")
        "t0").is_processed "acc-1" = true
    ∧ ((emptyStorage.mark_processed "acc-1" "0001" (some "8-K") (some "2024-01-01")
        "t0").mark_processed "acc-1" "0002" (some "10-K") (some "2024-01-02")
        "t1").processed_filings.countP (fun r => r.accession_number == "acc-1") = 1 := by
  have h := C1_dedupe_write_once emptyStorage "acc-1" "0001" "0002" "t0" "t1"
    "High" "Low" (some "8-K") (some "10-K") (some "2024-01-01") (some "2024-01-02")
    [] [] (by decide) (by decide)
  exact ⟨⟨by decide, by decide⟩, h.1, h.2.1, h.2.2.2.1⟩

/-! ### Claim C3: the alert threshold total order -/

theorem impactRankGet_eq_spec (s : String) :
    impactRankGet s 0 = impactRank_spec (some s) := by
  by_cases h0 : s = "None"
  · subst h0; decide
  · by_cases h1 : s = "Low"
    · subst h1; decide
    · by_cases h2 : s = "Medium"
      · subst h2; decide
      · by_cases h3 : s = "High"
        · subst h3; decide
        · have e0 : (s == "None") = false := beq_eq_false_iff_ne.mpr h0
          have e1 : (s == "Low") = false := beq_eq_false_iff_ne.mpr h1
          have e2 : (s == "Medium") = false := beq_eq_false_iff_ne.mpr h2
          have e3 : (s == "High") = false := beq_eq_false_iff_ne.mpr h3
          simp [impactRankGet, IMPACT_RANK, impactRank_spec, List.lookup,
            e0, e1, e2, e3, h0, h1, h2, h3]

theorem impactRankGet_getD (lv : Option String) :
    impactRankGet (lv.getD "None") 0 = impactRank_spec lv := by
  cases lv with
  | none => decide
  | some s => exact impactRankGet_eq_spec s

/-- Claim C3: `should_alert` returns true iff the rank of the assessment's
`impact_level` under None(0) < Low(1) < Medium(2) < High(3) is at least the
rank of the configured minimum (`ALERT_MIN_IMPACT`), with a missing or
unrecognized level ranking as None; with the configured minimum `Medium`,
High and Medium alert while Low, None, missing and unknown levels do not.
The embedding of `should_alert` is a pure function of its argument. -/
theorem C3_should_alert_total_order :
    (∀ a : Analysis, should_alert a = should_alert_spec a)
    ∧ should_alert ⟨none, none, some "High", none⟩ = true
    ∧ should_alert ⟨none, none, some "Medium", none⟩ = true
    ∧ should_alert ⟨none, none, some "Low", none⟩ = false
    ∧ should_alert ⟨none, none, some "None", none⟩ = false
    ∧ should_alert ⟨none, none, none, none⟩ = false
    ∧ should_alert ⟨none, none, some "Unexpected", none⟩ = false := by
  refine ⟨?_, by decide, by decide, by decide, by decide, by decide, by decide⟩
  intro a
  unfold should_alert should_alert_spec
  rw [impactRankGet_getD,
    show impactRankGet ALERT_MIN_IMPACT 2 = impactRank_spec (some ALERT_MIN_IMPACT) from
      by decide]

/-! ### Claim C4: the prefilter gate and the per-form threshold lookup -/

/-- Claim C4: `prefilter` returns false on null text, on empty text, on
text shorter than the minimum, and on text containing a configured
boilerplate phrase (regardless of length); it returns true otherwise, in
particular on clean text of length exactly the minimum.  The per-form
minimum used by the orchestrator (`minCharsFor`, from
src/run_monitor.py:66-67, which upper-cases and strips the filing's form
type before the lookup exactly as the source does) is the `FORM_MIN_CHARS`
table entry when one exists and the default 1500 otherwise. -/
theorem C4_prefilter_and_threshold :
    (∀ m : Nat, prefilter none m = false)
    ∧ (∀ (t : String) (m : Nat), pyLen t = 0 → prefilter (some t) m = false)
    ∧ (∀ (t : String) (m : Nat), pyLen t < m → prefilter (some t) m = false)
    ∧ (∀ (t : String) (m : Nat), hasBoilerplate t = true → prefilter (some t) m = false)
    ∧ (∀ (t : String) (m : Nat), pyLen t ≠ 0 → m ≤ pyLen t → hasBoilerplate t = false →
        prefilter (some t) m = true)
    ∧ (∀ t : String, pyLen t ≠ 0 → hasBoilerplate t = false →
        prefilter (some t) (pyLen t) = true)
    ∧ (∀ (ft : Option String) (mc : Nat),
        FORM_MIN_CHARS.lookup (normalizeForm ft) = some mc → minCharsFor ft = mc)
    ∧ (∀ ft : Option String,
        FORM_MIN_CHARS.lookup (normalizeForm ft) = none → minCharsFor ft = 1500)
    ∧ minCharsFor (some "8-K") = 800
    ∧ minCharsFor (some "10-K") = 3000
    ∧ minCharsFor (some "UNKNOWN-FORM") = 1500
    ∧ minCharsFor none = 1500 := by
  refine ⟨fun m => rfl, ?_, ?_, ?_, ?_, ?_, ?_, ?_, by decide, by decide, by decide,
    by decide⟩
  · intro t m h
    simp [prefilter, h]
  · intro t m h
    by_cases h0 : pyLen t = 0
    · simp [prefilter, h0]
    · simp [prefilter, h0, h]
  · intro t m h
    by_cases h0 : pyLen t = 0
    · simp [prefilter, h0]
    · by_cases h1 : pyLen t < m
      · simp [prefilter, h0, h1]
      · simp [prefilter, h0, h1, h]
  · intro t m h0 h1 h2
    have h1' : ¬ pyLen t < m := not_lt.mpr h1
    simp [prefilter, h0, h1', h2]
  · intro t h0 h2
    have h1' : ¬ pyLen t < pyLen t := lt_irrefl _
    simp [prefilter, h0, h1', h2]
  · intro ft mc h
    simp [minCharsFor, h]
  · intro ft h
    simp [minCharsFor, h]

/-- Concrete instance of C4: non-boilerplate text of length exactly the
minimum is accepted, and a short text is rejected. -/
theorem C4_prefilter_and_threshold_witness :
    (pyLen "abcde" ≠ 0 ∧ 5 ≤ pyLen "abcde" ∧ hasBoilerplate "abcde" = false)
    ∧ prefilter (some "abcde") 5 = true := by
  refine ⟨⟨by decide, by decide, by decide⟩, ?_⟩
  exact C4_prefilter_and_threshold.2.2.2.2.1 "abcde" 5 (by decide) (by decide) (by decide)

/-! ### Branch equations for the orchestrator loop body -/

theorem processFiling_extract_err (env : Env) (symbol cik : String) (f : Filing)
    (st : Storage) (u : Unit) (hex : env.extract f.primary_doc_url = Except.error u) :
    processFiling env symbol cik f st =
      (st, [Event.extractCall f.accession_number f.primary_doc_url]) := by
  simp [processFiling, hex]

theorem processFiling_reject (env : Env) (symbol cik : String) (f : Filing)
    (st : Storage) (text : String)
    (hex : env.extract f.primary_doc_url = Except.ok text)
    (hpre : prefilter (some text) (minCharsFor f.form_type) = false) :
    processFiling env symbol cik f st =
      (st.mark_processed f.accession_number cik f.form_type f.filing_date env.now,
        [Event.extractCall f.accession_number f.primary_doc_url,
         Event.debugFetch f.accession_number f.primary_doc_url]) := by
  simp [processFiling, hex, hpre]

theorem processFiling_classify_err (env : Env) (symbol cik : String) (f : Filing)
    (st : Storage) (text : String) (u : Unit)
    (hex : env.extract f.primary_doc_url = Except.ok text)
    (hpre : prefilter (some text) (minCharsFor f.form_type) = true)
    (hcl : env.classify text = Except.error u) :
    processFiling env symbol cik f st =
      (st.mark_processed f.accession_number cik f.form_type f.filing_date env.now,
        [Event.extractCall f.accession_number f.primary_doc_url,
         Event.debugFetch f.accession_number f.primary_doc_url,
         Event.classifyCall f.accession_number]) := by
  simp [processFiling, hex, hpre, hcl]

theorem processFiling_no_alert (env : Env) (symbol cik : String) (f : Filing)
    (st : Storage) (text : String) (a : Analysis)
    (hex : env.extract f.primary_doc_url = Except.ok text)
    (hpre : prefilter (some text) (minCharsFor f.form_type) = true)
    (hcl : env.classify text = Except.ok a)
    (hcond : (should_alert a && !(st.has_alert f.accession_number)) = false) :
    processFiling env symbol cik f st =
      (st.mark_processed f.accession_number cik f.form_type f.filing_date env.now,
        [Event.extractCall f.accession_number f.primary_doc_url,
         Event.debugFetch f.accession_number f.primary_doc_url,
         Event.classifyCall f.accession_number]) := by
  simp [processFiling, hex, hpre, hcl, hcond]

theorem processFiling_send_err (env : Env) (symbol cik : String) (f : Filing)
    (st : Storage) (text : String) (a : Analysis) (u : Unit)
    (hex : env.extract f.primary_doc_url = Except.ok text)
    (hpre : prefilter (some text) (minCharsFor f.form_type) = true)
    (hcl : env.classify text = Except.ok a)
    (hcond : (should_alert a && !(st.has_alert f.accession_number)) = true)
    (hsend : env.send (format_alert symbol f a).1 (format_alert symbol f a).2 =
      Except.error u) :
    processFiling env symbol cik f st =
      (st.mark_processed f.accession_number cik f.form_type f.filing_date env.now,
        [Event.extractCall f.accession_number f.primary_doc_url,
         Event.debugFetch f.accession_number f.primary_doc_url,
         Event.classifyCall f.accession_number,
         Event.sendCall f.accession_number]) := by
  simp [processFiling, hex, hpre, hcl, hcond, hsend]

theorem processFiling_alert_ok (env : Env) (symbol cik : String) (f : Filing)
    (st : Storage) (text : String) (a : Analysis) (u : Unit)
    (hex : env.extract f.primary_doc_url = Except.ok text)
    (hpre : prefilter (some text) (minCharsFor f.form_type) = true)
    (hcl : env.classify text = Except.ok a)
    (hcond : (should_alert a && !(st.has_alert f.accession_number)) = true)
    (hsend : env.send (format_alert symbol f a).1 (format_alert symbol f a).2 =
      Except.ok u) :
    processFiling env symbol cik f st =
      ((st.mark_alert_sent f.accession_number (a.impact_level.getD "None")
          [("symbol", symbol)] env.now).mark_processed f.accession_number cik
          f.form_type f.filing_date env.now,
        [Event.extractCall f.accession_number f.primary_doc_url,
         Event.debugFetch f.accession_number f.primary_doc_url,
         Event.classifyCall f.accession_number,
         Event.sendCall f.accession_number]) := by
  simp [processFiling, hex, hpre, hcl, hcond, hsend]

/-- Exhaustive description of the possible results of one loop iteration:
skip with no write, or `mark_processed` only (with two, three or four
collaborator calls logged), or `mark_alert_sent` followed by
`mark_processed`. -/
theorem processFiling_branches (env : Env) (symbol cik : String) (f : Filing)
    (st : Storage) :
    processFiling env symbol cik f st =
      (st, [Event.extractCall f.accession_number f.primary_doc_url])
    ∨ processFiling env symbol cik f st =
      (st.mark_processed f.accession_number cik f.form_type f.filing_date env.now,
        [Event.extractCall f.accession_number f.primary_doc_url,
         Event.debugFetch f.accession_number f.primary_doc_url])
    ∨ processFiling env symbol cik f st =
      (st.mark_processed f.accession_number cik f.form_type f.filing_date env.now,
        [Event.extractCall f.accession_number f.primary_doc_url,
         Event.debugFetch f.accession_number f.primary_doc_url,
         Event.classifyCall f.accession_number])
    ∨ processFiling env symbol cik f st =
      (st.mark_processed f.accession_number cik f.form_type f.filing_date env.now,
        [Event.extractCall f.accession_number f.primary_doc_url,
         Event.debugFetch f.accession_number f.primary_doc_url,
         Event.classifyCall f.accession_number,
         Event.sendCall f.accession_number])
    ∨ ∃ a : Analysis, processFiling env symbol cik f st =
      ((st.mark_alert_sent f.accession_number (a.impact_level.getD "None")
          [("symbol", symbol)] env.now).mark_processed f.accession_number cik
          f.form_type f.filing_date env.now,
        [Event.extractCall f.accession_number f.primary_doc_url,
         Event.debugFetch f.accession_number f.primary_doc_url,
         Event.classifyCall f.accession_number,
         Event.sendCall f.accession_number]) := by
  cases hex : env.extract f.primary_doc_url with
  | error u =>
    exact Or.inl (processFiling_extract_err env symbol cik f st u hex)
  | ok text =>
    by_cases hpre : prefilter (some text) (minCharsFor f.form_type) = false
    · exact Or.inr (Or.inl (processFiling_reject env symbol cik f st text hex hpre))
    · have hpre2 : prefilter (some text) (minCharsFor f.form_type) = true := by
        revert hpre; cases prefilter (some text) (minCharsFor f.form_type) <;> simp
      cases hcl : env.classify text with
      | error u =>
        exact Or.inr (Or.inr (Or.inl
          (processFiling_classify_err env symbol cik f st text u hex hpre2 hcl)))
      | ok a =>
        by_cases hcond : (should_alert a && !(st.has_alert f.accession_number)) = true
        · cases hsend : env.send (format_alert symbol f a).1 (format_alert symbol f a).2 with
          | ok u =>
            exact Or.inr (Or.inr (Or.inr (Or.inr ⟨a,
              processFiling_alert_ok env symbol cik f st text a u hex hpre2 hcl hcond hsend⟩)))
          | error u =>
            exact Or.inr (Or.inr (Or.inr (Or.inl
              (processFiling_send_err env symbol cik f st text a u hex hpre2 hcl hcond hsend))))
        · have hcond2 : (should_alert a && !(st.has_alert f.accession_number)) = false := by
            revert hcond
            cases should_alert a && !(st.has_alert f.accession_number) <;> simp
          exact Or.inr (Or.inr (Or.inl
            (processFiling_no_alert env symbol cik f st text a hex hpre2 hcl hcond2)))

theorem processFiling_events_acc (env : Env) (symbol cik : String) (f : Filing)
    (st : Storage) :
    ∀ e ∈ (processFiling env symbol cik f st).2, e.acc = f.accession_number := by
  intro e he
  rcases processFiling_branches env symbol cik f st with h | h | h | h | ⟨a, h⟩ <;>
    rw [h] at he <;> simp only [List.mem_cons, List.not_mem_nil, or_false] at he
  · subst he; rfl
  · rcases he with rfl | rfl <;> rfl
  · rcases he with rfl | rfl | rfl <;> rfl
  · rcases he with rfl | rfl | rfl | rfl <;> rfl
  · rcases he with rfl | rfl | rfl | rfl <;> rfl

theorem processFiling_extract_mem (env : Env) (symbol cik : String) (f : Filing)
    (st : Storage) :
    Event.extractCall f.accession_number f.primary_doc_url ∈
      (processFiling env symbol cik f st).2 := by
  rcases processFiling_branches env symbol cik f st with h | h | h | h | ⟨a, h⟩ <;>
    rw [h] <;> simp

theorem processFiling_is_processed_mono (env : Env) (symbol cik : String) (f : Filing)
    (st : Storage) (x : String) (h : st.is_processed x = true) :
    (processFiling env symbol cik f st).1.is_processed x = true := by
  rcases processFiling_branches env symbol cik f st with hb | hb | hb | hb | ⟨a, hb⟩ <;>
    rw [hb]
  · exact h
  · exact is_processed_mark_processed_mono st _ cik f.form_type f.filing_date env.now x h
  · exact is_processed_mark_processed_mono st _ cik f.form_type f.filing_date env.now x h
  · exact is_processed_mark_processed_mono st _ cik f.form_type f.filing_date env.now x h
  · refine is_processed_mark_processed_mono _ _ cik f.form_type f.filing_date env.now x ?_
    rw [is_processed_mark_alert_sent]
    exact h

theorem processFiling_is_processed_cases (env : Env) (symbol cik : String) (f : Filing)
    (st : Storage) (x : String)
    (h : (processFiling env symbol cik f st).1.is_processed x = true) :
    st.is_processed x = true ∨ x = f.accession_number := by
  rcases processFiling_branches env symbol cik f st with hb | hb | hb | hb | ⟨a, hb⟩ <;>
    rw [hb] at h
  · exact Or.inl h
  · exact is_processed_mark_processed_cases st _ cik f.form_type f.filing_date env.now x h
  · exact is_processed_mark_processed_cases st _ cik f.form_type f.filing_date env.now x h
  · exact is_processed_mark_processed_cases st _ cik f.form_type f.filing_date env.now x h
  · rcases is_processed_mark_processed_cases _ _ cik f.form_type f.filing_date env.now x h
      with h2 | h2
    · rw [is_processed_mark_alert_sent] at h2
      exact Or.inl h2
    · exact Or.inr h2

/-- The C5 invariant as a statement about a single store. -/
def alertsCovered (st : Storage) : Prop :=
  ∀ r ∈ st.alerts_sent, st.is_processed r.accession_number = true

theorem alertsCovered_mark_processed (st : Storage) (acc cik : String)
    (ft fd : Option String) (now : String) (h : alertsCovered st) :
    alertsCovered (st.mark_processed acc cik ft fd now) := by
  intro r hr
  rw [mark_processed_alerts_sent] at hr
  exact is_processed_mark_processed_mono st acc cik ft fd now _ (h r hr)

theorem processFiling_alertsCovered (env : Env) (symbol cik : String) (f : Filing)
    (st : Storage) (h : alertsCovered st) :
    alertsCovered (processFiling env symbol cik f st).1 := by
  rcases processFiling_branches env symbol cik f st with hb | hb | hb | hb | ⟨a, hb⟩ <;>
    rw [hb]
  · exact h
  · exact alertsCovered_mark_processed st _ cik f.form_type f.filing_date env.now h
  · exact alertsCovered_mark_processed st _ cik f.form_type f.filing_date env.now h
  · exact alertsCovered_mark_processed st _ cik f.form_type f.filing_date env.now h
  · intro r hr
    rw [mark_processed_alerts_sent] at hr
    rcases mem_alerts_mark_alert_sent st f.accession_number (a.impact_level.getD "None")
        [("symbol", symbol)] env.now r hr with h2 | h2
    · refine is_processed_mark_processed_mono _ _ cik f.form_type f.filing_date env.now _ ?_
      rw [is_processed_mark_alert_sent]
      exact h r h2
    · rw [h2]
      exact is_processed_mark_processed_self _ f.accession_number cik f.form_type
        f.filing_date env.now

theorem processFiling_ok_shape (env : Env) (symbol cik : String) (f : Filing)
    (st : Storage) (text : String)
    (hex : env.extract f.primary_doc_url = Except.ok text) :
    ∃ t, (processFiling env symbol cik f st).2 =
      Event.extractCall f.accession_number f.primary_doc_url ::
      Event.debugFetch f.accession_number f.primary_doc_url :: t := by
  by_cases hpre : prefilter (some text) (minCharsFor f.form_type) = false
  · exact ⟨[], by rw [processFiling_reject env symbol cik f st text hex hpre]⟩
  · have hpre2 : prefilter (some text) (minCharsFor f.form_type) = true := by
      revert hpre; cases prefilter (some text) (minCharsFor f.form_type) <;> simp
    cases hcl : env.classify text with
    | error u =>
      exact ⟨[Event.classifyCall f.accession_number],
        by rw [processFiling_classify_err env symbol cik f st text u hex hpre2 hcl]⟩
    | ok a =>
      by_cases hcond : (should_alert a && !(st.has_alert f.accession_number)) = true
      · cases hsend : env.send (format_alert symbol f a).1 (format_alert symbol f a).2 with
        | ok u =>
          exact ⟨[Event.classifyCall f.accession_number, Event.sendCall f.accession_number],
            by rw [processFiling_alert_ok env symbol cik f st text a u hex hpre2 hcl
              hcond hsend]⟩
        | error u =>
          exact ⟨[Event.classifyCall f.accession_number, Event.sendCall f.accession_number],
            by rw [processFiling_send_err env symbol cik f st text a u hex hpre2 hcl
              hcond hsend]⟩
      · have hcond2 : (should_alert a && !(st.has_alert f.accession_number)) = false := by
          revert hcond
          cases should_alert a && !(st.has_alert f.accession_number) <;> simp
        exact ⟨[Event.classifyCall f.accession_number],
          by rw [processFiling_no_alert env symbol cik f st text a hex hpre2 hcl hcond2]⟩

/-! ### Equations for the whole scan -/

theorem process_company_nil (env : Env) (symbol cik : String) (st : Storage) :
    process_company env symbol cik [] st = (st, []) := rfl

theorem process_company_stop (env : Env) (symbol cik : String) (f : Filing)
    (rest : List Filing) (st : Storage) (h : st.is_processed f.accession_number = true) :
    process_company env symbol cik (f :: rest) st = (st, []) := by
  simp [process_company, h]

theorem process_company_step (env : Env) (symbol cik : String) (f : Filing)
    (rest : List Filing) (st : Storage) (h : st.is_processed f.accession_number = false) :
    process_company env symbol cik (f :: rest) st =
      ((process_company env symbol cik rest (processFiling env symbol cik f st).1).1,
        (processFiling env symbol cik f st).2 ++
          (process_company env symbol cik rest (processFiling env symbol cik f st).1).2) := by
  simp [process_company, h]

/-! ### Claims C6, C7, C8: per-filing failure handling -/

/-- Claim C6: when extraction of a filing's document fails the orchestrator
skips it and continues with the next filing, writing no record at all for
it — the store passed to the rest of the scan is unchanged, so the filing
stays eligible for retry on the next poll. -/
theorem C6_extraction_failure_skips (env : Env) (symbol cik : String) (f : Filing)
    (rest : List Filing) (st : Storage)
    (h1 : st.is_processed f.accession_number = false)
    (h2 : env.extract f.primary_doc_url = Except.error ()) :
    processFiling env symbol cik f st =
      (st, [Event.extractCall f.accession_number f.primary_doc_url])
    ∧ process_company env symbol cik (f :: rest) st =
        ((process_company env symbol cik rest st).1,
          Event.extractCall f.accession_number f.primary_doc_url ::
            (process_company env symbol cik rest st).2) := by
  have hpf := processFiling_extract_err env symbol cik f st () h2
  refine ⟨hpf, ?_⟩
  have hstep := process_company_step env symbol cik f rest st h1
  rw [hpf] at hstep
  simpa using hstep

def fC6 : Filing := ⟨"acc-6", some "8-K", some "2024-01-01", "url-6"⟩

def envC6 : Env :=
  ⟨fun _ => Except.error (), fun _ => Except.error (), fun _ _ => Except.error (),
   fun _ => Except.ok (), "t6"⟩

/-- Concrete instance of C6: a fresh store, one filing whose fetch raises. -/
theorem C6_extraction_failure_skips_witness :
    (emptyStorage.is_processed fC6.accession_number = false
      ∧ envC6.extract fC6.primary_doc_url = Except.error ())
    ∧ processFiling envC6 "GEHC" "0001932393" fC6 emptyStorage =
        (emptyStorage, [Event.extractCall fC6.accession_number fC6.primary_doc_url]) := by
  refine ⟨⟨rfl, rfl⟩, ?_⟩
  exact (C6_extraction_failure_skips envC6 "GEHC" "0001932393" fC6 [] emptyStorage
    rfl rfl).1

/-- Claim C7: a Classifier failure for filing A marks A processed, sends no
alert and writes no AlertRecord for A (the alerts table is untouched), and
the loop continues, so an older filing in the same list is still attempted
(its extraction is invoked whenever the scan reaches it unprocessed). -/
theorem C7_classifier_failure_isolated (env : Env) (symbol cik : String) (f : Filing)
    (rest : List Filing) (st : Storage) (text : String)
    (h1 : st.is_processed f.accession_number = false)
    (hex : env.extract f.primary_doc_url = Except.ok text)
    (hpre : prefilter (some text) (minCharsFor f.form_type) = true)
    (hcl : env.classify text = Except.error ()) :
    processFiling env symbol cik f st =
      (st.mark_processed f.accession_number cik f.form_type f.filing_date env.now,
        [Event.extractCall f.accession_number f.primary_doc_url,
         Event.debugFetch f.accession_number f.primary_doc_url,
         Event.classifyCall f.accession_number])
    ∧ (st.mark_processed f.accession_number cik f.form_type f.filing_date
        env.now).is_processed f.accession_number = true
    ∧ (st.mark_processed f.accession_number cik f.form_type f.filing_date
        env.now).alerts_sent = st.alerts_sent
    ∧ process_company env symbol cik (f :: rest) st =
        ((process_company env symbol cik rest
            (st.mark_processed f.accession_number cik f.form_type f.filing_date env.now)).1,
          [Event.extractCall f.accession_number f.primary_doc_url,
           Event.debugFetch f.accession_number f.primary_doc_url,
           Event.classifyCall f.accession_number] ++
            (process_company env symbol cik rest
              (st.mark_processed f.accession_number cik f.form_type f.filing_date
                env.now)).2)
    ∧ (∀ (g : Filing) (rest2 : List Filing), rest = g :: rest2 →
        (st.mark_processed f.accession_number cik f.form_type f.filing_date
          env.now).is_processed g.accession_number = false →
        Event.extractCall g.accession_number g.primary_doc_url ∈
          (process_company env symbol cik (f :: rest) st).2) := by
  have hpf := processFiling_classify_err env symbol cik f st text () hex hpre hcl
  have hstep := process_company_step env symbol cik f rest st h1
  rw [hpf] at hstep
  refine ⟨hpf,
    is_processed_mark_processed_self st f.accession_number cik f.form_type
      f.filing_date env.now,
    mark_processed_alerts_sent st f.accession_number cik f.form_type f.filing_date
      env.now,
    hstep, ?_⟩
  intro g rest2 hr hg
  subst hr
  rw [hstep]
  have hstep2 := process_company_step env symbol cik g rest2
    (st.mark_processed f.accession_number cik f.form_type f.filing_date env.now) hg
  rw [hstep2]
  refine List.mem_append.mpr (Or.inr (List.mem_append.mpr (Or.inl ?_)))
  exact processFiling_extract_mem env symbol cik g
    (st.mark_processed f.accession_number cik f.form_type f.filing_date env.now)

def fC7 : Filing := ⟨"acc-7", some "4", some "2024-02-01", "url-7"⟩

def textC7 : String := String.mk (List.replicate 300 'a')

def envC7 : Env :=
  ⟨fun _ => Except.ok textC7, fun _ => Except.error (), fun _ _ => Except.ok (),
   fun _ => Except.ok (), "t7"⟩

/-- Concrete instance of C7: 300 chars of clean text on a Form 4
(minimum 300), classifier raises. -/
theorem C7_classifier_failure_isolated_witness :
    (emptyStorage.is_processed fC7.accession_number = false
      ∧ envC7.extract fC7.primary_doc_url = Except.ok textC7
      ∧ prefilter (some textC7) (minCharsFor fC7.form_type) = true
      ∧ envC7.classify textC7 = Except.error ())
    ∧ processFiling envC7 "GEHC" "0001932393" fC7 emptyStorage =
        (emptyStorage.mark_processed fC7.accession_number "0001932393" fC7.form_type
          fC7.filing_date envC7.now,
          [Event.extractCall fC7.accession_number fC7.primary_doc_url,
           Event.debugFetch fC7.accession_number fC7.primary_doc_url,
           Event.classifyCall fC7.accession_number]) := by
  refine ⟨⟨rfl, rfl, by decide, rfl⟩, ?_⟩
  exact (C7_classifier_failure_isolated envC7 "GEHC" "0001932393" fC7 [] emptyStorage
    textC7 rfl rfl (by decide) rfl).1

/-- Claim C8: when the Notifier's send raises for a filing the alert policy
selected, the error is swallowed, no AlertRecord is written (the alerts
table is untouched), the ProcessedRecord is still written, and the scan
continues to the next filing — at most one alert attempt, no retry. -/
theorem C8_notify_failure_no_alert_record (env : Env) (symbol cik : String) (f : Filing)
    (rest : List Filing) (st : Storage) (text : String) (a : Analysis)
    (h1 : st.is_processed f.accession_number = false)
    (hex : env.extract f.primary_doc_url = Except.ok text)
    (hpre : prefilter (some text) (minCharsFor f.form_type) = true)
    (hcl : env.classify text = Except.ok a)
    (hsa : should_alert a = true)
    (hha : st.has_alert f.accession_number = false)
    (hsend : env.send (format_alert symbol f a).1 (format_alert symbol f a).2 =
      Except.error ()) :
    processFiling env symbol cik f st =
      (st.mark_processed f.accession_number cik f.form_type f.filing_date env.now,
        [Event.extractCall f.accession_number f.primary_doc_url,
         Event.debugFetch f.accession_number f.primary_doc_url,
         Event.classifyCall f.accession_number,
         Event.sendCall f.accession_number])
    ∧ (st.mark_processed f.accession_number cik f.form_type f.filing_date
        env.now).alerts_sent = st.alerts_sent
    ∧ (st.mark_processed f.accession_number cik f.form_type f.filing_date
        env.now).has_alert f.accession_number = false
    ∧ (st.mark_processed f.accession_number cik f.form_type f.filing_date
        env.now).is_processed f.accession_number = true
    ∧ process_company env symbol cik (f :: rest) st =
        ((process_company env symbol cik rest
            (st.mark_processed f.accession_number cik f.form_type f.filing_date env.now)).1,
          [Event.extractCall f.accession_number f.primary_doc_url,
           Event.debugFetch f.accession_number f.primary_doc_url,
           Event.classifyCall f.accession_number,
           Event.sendCall f.accession_number] ++
            (process_company env symbol cik rest
              (st.mark_processed f.accession_number cik f.form_type f.filing_date
                env.now)).2) := by
  have hcond : (should_alert a && !(st.has_alert f.accession_number)) = true := by
    rw [hsa, hha]
    rfl
  have hpf := processFiling_send_err env symbol cik f st text a () hex hpre hcl hcond hsend
  have hstep := process_company_step env symbol cik f rest st h1
  rw [hpf] at hstep
  refine ⟨hpf,
    mark_processed_alerts_sent st f.accession_number cik f.form_type f.filing_date env.now,
    ?_,
    is_processed_mark_processed_self st f.accession_number cik f.form_type
      f.filing_date env.now,
    hstep⟩
  rw [has_alert_mark_processed]
  exact hha

def fC8 : Filing := ⟨"acc-8", some "4", some "2024-03-01", "url-8"⟩

def aC8 : Analysis := ⟨none, none, some "High", none⟩

def envC8 : Env :=
  ⟨fun _ => Except.ok textC7, fun _ => Except.ok aC8, fun _ _ => Except.error (),
   fun _ => Except.ok (), "t8"⟩

/-- Concrete instance of C8: High-impact assessment, send raises. -/
theorem C8_notify_failure_no_alert_record_witness :
    (emptyStorage.is_processed fC8.accession_number = false
      ∧ envC8.extract fC8.primary_doc_url = Except.ok textC7
      ∧ prefilter (some textC7) (minCharsFor fC8.form_type) = true
      ∧ envC8.classify textC7 = Except.ok aC8
      ∧ should_alert aC8 = true
      ∧ emptyStorage.has_alert fC8.accession_number = false
      ∧ envC8.send (format_alert "GEHC" fC8 aC8).1 (format_alert "GEHC" fC8 aC8).2 =
          Except.error ())
    ∧ processFiling envC8 "GEHC" "0001932393" fC8 emptyStorage =
        (emptyStorage.mark_processed fC8.accession_number "0001932393" fC8.form_type
          fC8.filing_date envC8.now,
          [Event.extractCall fC8.accession_number fC8.primary_doc_url,
           Event.debugFetch fC8.accession_number fC8.primary_doc_url,
           Event.classifyCall fC8.accession_number,
           Event.sendCall fC8.accession_number])
    ∧ (emptyStorage.mark_processed fC8.accession_number "0001932393" fC8.form_type
        fC8.filing_date envC8.now).alerts_sent = emptyStorage.alerts_sent := by
  have h := C8_notify_failure_no_alert_record envC8 "GEHC" "0001932393" fC8 []
    emptyStorage textC7 aC8 rfl rfl (by decide) rfl (by decide) rfl rfl
  exact ⟨⟨rfl, rfl, by decide, rfl, by decide, rfl, rfl⟩, h.1, h.2.1⟩

/-! ### Claim C10: the debug re-fetch is unconditional and effect-free -/

theorem processFiling_env_frame (env env2 : Env) (symbol cik : String) (f : Filing)
    (st : Storage)
    (hx : env2.extract = env.extract) (hc : env2.classify = env.classify)
    (hs : env2.send = env.send) (hn : env2.now = env.now) :
    processFiling env2 symbol cik f st = processFiling env symbol cik f st := by
  unfold processFiling
  rw [hx, hc, hs, hn]

theorem process_company_env_frame (env env2 : Env) (symbol cik : String)
    (l : List Filing) (st : Storage)
    (hx : env2.extract = env.extract) (hc : env2.classify = env.classify)
    (hs : env2.send = env.send) (hn : env2.now = env.now) :
    process_company env2 symbol cik l st = process_company env symbol cik l st := by
  induction l generalizing st with
  | nil => rfl
  | cons f rest ih =>
    by_cases h : st.is_processed f.accession_number = true
    · rw [process_company_stop env2 symbol cik f rest st h,
        process_company_stop env symbol cik f rest st h]
    · have h2 : st.is_processed f.accession_number = false := by
        revert h; cases st.is_processed f.accession_number <;> simp
      rw [process_company_step env2 symbol cik f rest st h2,
        process_company_step env symbol cik f rest st h2,
        processFiling_env_frame env env2 symbol cik f st hx hc hs hn, ih]

/-- Claim C10: for every filing that passes the dedupe check and whose
extraction succeeds, the scan performs the debug re-fetch of the same
document URL (the `debugFetch` event, emitted right after `extractCall` and
before any classification), and the outcome of that re-fetch influences
nothing: two environments that agree on extraction, classification, sending
and the clock — but may differ arbitrarily on the debug save — produce
identical stores and identical event logs. -/
theorem C10_debug_refetch_frame (env env2 : Env) (symbol cik : String)
    (l : List Filing) (st : Storage)
    (hx : env2.extract = env.extract) (hc : env2.classify = env.classify)
    (hs : env2.send = env.send) (hn : env2.now = env.now) :
    process_company env2 symbol cik l st = process_company env symbol cik l st
    ∧ (∀ (f : Filing) (rest : List Filing) (st2 : Storage) (text : String),
        st2.is_processed f.accession_number = false →
        env.extract f.primary_doc_url = Except.ok text →
        ∃ t, (process_company env symbol cik (f :: rest) st2).2 =
          Event.extractCall f.accession_number f.primary_doc_url ::
          Event.debugFetch f.accession_number f.primary_doc_url :: t) := by
  refine ⟨process_company_env_frame env env2 symbol cik l st hx hc hs hn, ?_⟩
  intro f rest st2 text h1 hex
  obtain ⟨t0, ht⟩ := processFiling_ok_shape env symbol cik f st2 text hex
  rw [process_company_step env symbol cik f rest st2 h1]
  refine ⟨t0 ++ (process_company env symbol cik rest
    (processFiling env symbol cik f st2).1).2, ?_⟩
  simp [ht]

def envC10a : Env :=
  ⟨fun _ => Except.ok "short body", fun _ => Except.error (),
   fun _ _ => Except.ok (), fun _ => Except.ok (), "t10"⟩

def envC10b : Env :=
  ⟨fun _ => Except.ok "short body", fun _ => Except.error (),
   fun _ _ => Except.ok (), fun _ => Except.error (), "t10"⟩

def fC10 : Filing := ⟨"acc-10", some "8-K", none, "url-10"⟩

/-- Concrete instance of C10: two environments differing only in whether
the debug save raises give identical runs. -/
theorem C10_debug_refetch_frame_witness :
    (envC10b.extract = envC10a.extract ∧ envC10b.classify = envC10a.classify
      ∧ envC10b.send = envC10a.send ∧ envC10b.now = envC10a.now)
    ∧ process_company envC10b "GEHC" "0001932393" [fC10] emptyStorage =
        process_company envC10a "GEHC" "0001932393" [fC10] emptyStorage := by
  refine ⟨⟨rfl, rfl, rfl, rfl⟩, ?_⟩
  exact (C10_debug_refetch_frame envC10a envC10b "GEHC" "0001932393" [fC10]
    emptyStorage rfl rfl rfl rfl).1

/-! ### Claim C2: early stop at the first already-processed filing -/

/-- Claim C2: on a newest-to-oldest list split as `l1 ++ g :: l2` where
every filing of `l1` is not yet processed and `g` (the filing at index
`k = length l1`) is already processed, the scan invokes the Extractor for
every filing of `l1`, every logged collaborator call concerns a filing of
`l1`, and no Extractor / Classifier / Notifier (or debug-fetch) call is
made for `g` or for anything after it.  Filing ids are assumed pairwise
distinct, as the data model guarantees. -/
theorem C2_early_stop (env : Env) (symbol cik : String) (l1 l2 : List Filing)
    (g : Filing) (st : Storage)
    (hnd : ((l1 ++ g :: l2).map Filing.accession_number).Nodup)
    (hbefore : ∀ f ∈ l1, st.is_processed f.accession_number = false)
    (hat : st.is_processed g.accession_number = true) :
    (∀ f ∈ l1, Event.extractCall f.accession_number f.primary_doc_url ∈
        (process_company env symbol cik (l1 ++ g :: l2) st).2)
    ∧ (∀ e ∈ (process_company env symbol cik (l1 ++ g :: l2) st).2,
        e.acc ∈ l1.map Filing.accession_number)
    ∧ (∀ f2 ∈ g :: l2, ∀ e ∈ (process_company env symbol cik (l1 ++ g :: l2) st).2,
        e.acc ≠ f2.accession_number) := by
  have main : ∀ (l0 : List Filing) (st0 : Storage),
      ((l0 ++ g :: l2).map Filing.accession_number).Nodup →
      (∀ f ∈ l0, st0.is_processed f.accession_number = false) →
      st0.is_processed g.accession_number = true →
      (∀ f ∈ l0, Event.extractCall f.accession_number f.primary_doc_url ∈
          (process_company env symbol cik (l0 ++ g :: l2) st0).2)
      ∧ (∀ e ∈ (process_company env symbol cik (l0 ++ g :: l2) st0).2,
          e.acc ∈ l0.map Filing.accession_number) := by
    intro l0
    induction l0 with
    | nil =>
      intro st0 hnd0 hb0 hat0
      constructor
      · intro f hf
        cases hf
      · intro e he
        rw [List.nil_append, process_company_stop env symbol cik g l2 st0 hat0] at he
        cases he
    | cons f rest ih =>
      intro st0 hnd0 hb0 hat0
      have hf0 : st0.is_processed f.accession_number = false :=
        hb0 f (List.mem_cons_self f rest)
      rw [List.cons_append, List.map_cons, List.nodup_cons] at hnd0
      have hb1 : ∀ f2 ∈ rest,
          (processFiling env symbol cik f st0).1.is_processed f2.accession_number
            = false := by
        intro f2 hf2
        cases h2 : (processFiling env symbol cik f st0).1.is_processed
          f2.accession_number
        · rfl
        · exfalso
          rcases processFiling_is_processed_cases env symbol cik f st0 _ h2 with h3 | h3
          · have h4 := hb0 f2 (List.mem_cons_of_mem f hf2)
            rw [h4] at h3
            cases h3
          · apply hnd0.1
            rw [← h3]
            exact List.mem_map_of_mem Filing.accession_number
              (List.mem_append_left _ hf2)
      have hat1 : (processFiling env symbol cik f st0).1.is_processed
          g.accession_number = true :=
        processFiling_is_processed_mono env symbol cik f st0 _ hat0
      obtain ⟨ihA, ihB⟩ := ih (processFiling env symbol cik f st0).1 hnd0.2 hb1 hat1
      have hstep := process_company_step env symbol cik f (rest ++ g :: l2) st0 hf0
      constructor
      · intro f2 hf2
        rw [List.cons_append, hstep]
        rcases List.mem_cons.mp hf2 with rfl | hf3
        · exact List.mem_append.mpr (Or.inl
            (processFiling_extract_mem env symbol cik f2 st0))
        · exact List.mem_append.mpr (Or.inr (ihA f2 hf3))
      · intro e he
        rw [List.cons_append, hstep] at he
        rw [List.map_cons]
        rcases List.mem_append.mp he with h4 | h4
        · exact List.mem_cons.mpr (Or.inl
            (processFiling_events_acc env symbol cik f st0 e h4))
        · exact List.mem_cons.mpr (Or.inr (ihB e h4))
  obtain ⟨hA, hB⟩ := main l1 st hnd hbefore hat
  refine ⟨hA, hB, ?_⟩
  intro f2 hf2 e he hEq
  have hacc := hB e he
  rw [List.map_append] at hnd
  have hdisj := (List.nodup_append.mp hnd).2.2
  apply hdisj hacc
  rw [hEq]
  exact List.mem_map_of_mem Filing.accession_number hf2

def fC2a : Filing := ⟨"acc-2a", some "8-K", none, "url-2a"⟩

def fC2g : Filing := ⟨"acc-2g", some "8-K", none, "url-2g"⟩

def stC2 : Storage := ⟨[⟨"acc-2g", "0001932393", some "8-K", none, "t0"⟩], []⟩

def envC2 : Env :=
  ⟨fun _ => Except.error (), fun _ => Except.error (), fun _ _ => Except.error (),
   fun _ => Except.ok (), "t2"⟩

/-- Concrete instance of C2: the newer filing is extracted, and no logged
call concerns the already-processed older filing. -/
theorem C2_early_stop_witness :
    ((([fC2a] ++ fC2g :: []).map Filing.accession_number).Nodup
      ∧ stC2.is_processed fC2a.accession_number = false
      ∧ stC2.is_processed fC2g.accession_number = true)
    ∧ Event.extractCall fC2a.accession_number fC2a.primary_doc_url ∈
        (process_company envC2 "GEHC" "0001932393" ([fC2a] ++ fC2g :: []) stC2).2 := by
  refine ⟨⟨by decide, rfl, rfl⟩, ?_⟩
  exact (C2_early_stop envC2 "GEHC" "0001932393" [fC2a] [] fC2g stC2 (by decide)
    (by decide) rfl).1 fC2a (List.mem_cons_self _ _)

/-! ### Claim C5: every alert record is covered by a processed record -/

theorem process_company_alertsCovered (env : Env) (symbol cik : String)
    (l : List Filing) (st : Storage) (h : alertsCovered st) :
    alertsCovered (process_company env symbol cik l st).1 := by
  induction l generalizing st with
  | nil => exact h
  | cons f rest ih =>
    by_cases h1 : st.is_processed f.accession_number = true
    · rw [process_company_stop env symbol cik f rest st h1]
      exact h
    · have h2 : st.is_processed f.accession_number = false := by
        revert h1; cases st.is_processed f.accession_number <;> simp
      rw [process_company_step env symbol cik f rest st h2]
      exact ih _ (processFiling_alertsCovered env symbol cik f st h)

/-- Claim C5: in every Dedupe Store state reachable by running the
orchestrator (from the freshly created store, through any sequence of
filing iterations and whole passes, with arbitrary collaborator
behaviour), every id in the sent-alerts table also appears in the
processed-filings table. -/
theorem C5_alert_record_implies_processed (st : Storage) (h : ReachableStore st) :
    ∀ r ∈ st.alerts_sent, ∃ p ∈ st.processed_filings,
      p.accession_number = r.accession_number := by
  have key : alertsCovered st := by
    induction h with
    | init =>
      intro r hr
      cases hr
    | filingStep env symbol cik f st2 h2 ih =>
      exact processFiling_alertsCovered env symbol cik f st2 ih
    | companyStep env symbol cik l st2 h2 ih =>
      exact process_company_alertsCovered env symbol cik l st2 ih
  intro r hr
  exact (is_processed_eq_true_iff st r.accession_number).mp (key r hr)

def textC5 : String := String.mk (List.replicate 300 'b')

def aC5 : Analysis := ⟨some ["one bullet"], some "Other", some "High", some "because"⟩

def fC5 : Filing := ⟨"acc-5", some "4", some "2024-04-01", "url-5"⟩

def envC5 : Env :=
  ⟨fun _ => Except.ok textC5, fun _ => Except.ok aC5, fun _ _ => Except.ok (),
   fun _ => Except.ok (), "t5"⟩

def stC5 : Storage := (processFiling envC5 "GEHC" "0001932393" fC5 emptyStorage).1

/-- Concrete instance of C5: after one iteration that sends an alert, the
alert record for `acc-5` is covered by a processed record. -/
theorem C5_alert_record_implies_processed_witness :
    ReachableStore stC5
    ∧ (⟨"acc-5", "t5", "High", [("symbol", "GEHC")]⟩ : AlertRecord) ∈ stC5.alerts_sent
    ∧ ∃ p ∈ stC5.processed_filings, p.accession_number = "acc-5" := by
  have hreach : ReachableStore stC5 :=
    ReachableStore.filingStep envC5 "GEHC" "0001932393" fC5 emptyStorage
      ReachableStore.init
  have hmem : (⟨"acc-5", "t5", "High", [("symbol", "GEHC")]⟩ : AlertRecord) ∈
      stC5.alerts_sent := by decide
  exact ⟨hreach, hmem, C5_alert_record_implies_processed stC5 hreach _ hmem⟩

/-! ### Claim C9: the classifier wrapper's retry-then-fallback protocol -/

theorem nonStreamLoop_zero (env : LlmEnv) (i : Nat) :
    nonStreamLoop env 0 i = ([], NonStreamOutcome.fallback) := rfl

theorem nonStreamLoop_content (env : LlmEnv) (n i : Nat) (c : String)
    (h : env.attempt i = AttemptResult.okContent c) :
    nonStreamLoop env (n + 1) i =
      ([LlmStep.nonStreamAttempt i], contentOutcome env c) := by
  cases n with
  | zero => simp [nonStreamLoop, h]
  | succ m => simp [nonStreamLoop, h]

theorem nonStreamLoop_nocontent (env : LlmEnv) (n i : Nat)
    (h : env.attempt i = AttemptResult.okNoContent) :
    nonStreamLoop env (n + 1) i =
      ([LlmStep.nonStreamAttempt i], NonStreamOutcome.fallback) := by
  cases n with
  | zero => simp [nonStreamLoop, h]
  | succ m => simp [nonStreamLoop, h]

theorem nonStreamLoop_err_last (env : LlmEnv) (i : Nat)
    (h : env.attempt i = AttemptResult.reqError) :
    nonStreamLoop env 1 i = ([LlmStep.nonStreamAttempt i], NonStreamOutcome.fallback) := by
  simp [nonStreamLoop, h]

theorem nonStreamLoop_err_retry (env : LlmEnv) (r i : Nat)
    (h : env.attempt i = AttemptResult.reqError) :
    nonStreamLoop env (r + 2) i =
      (LlmStep.nonStreamAttempt i :: LlmStep.backoff (1 * i) ::
        (nonStreamLoop env (r + 1) (i + 1)).1,
       (nonStreamLoop env (r + 1) (i + 1)).2) := by
  simp [nonStreamLoop, h]

theorem nonStreamLoop_count_le (env : LlmEnv) :
    ∀ (n i : Nat), countAttempts (nonStreamLoop env n i).1 ≤ n := by
  intro n
  induction n with
  | zero =>
    intro i
    rw [nonStreamLoop_zero]
    simp [countAttempts]
  | succ m ih =>
    intro i
    cases ha : env.attempt i with
    | okContent c =>
      rw [nonStreamLoop_content env m i c ha]
      simp [countAttempts, isAttemptStep]
    | okNoContent =>
      rw [nonStreamLoop_nocontent env m i ha]
      simp [countAttempts, isAttemptStep]
    | reqError =>
      cases m with
      | zero =>
        rw [nonStreamLoop_err_last env i ha]
        simp [countAttempts, isAttemptStep]
      | succ r =>
        rw [nonStreamLoop_err_retry env r i ha]
        have h2 := ih (i + 1)
        simp [countAttempts, List.countP_cons, isAttemptStep] at h2 ⊢
        omega

theorem nonStreamLoop_no_stream (env : LlmEnv) :
    ∀ (n i : Nat), LlmStep.streamAttempt ∉ (nonStreamLoop env n i).1
      ∧ LlmStep.scanForJson ∉ (nonStreamLoop env n i).1 := by
  intro n
  induction n with
  | zero =>
    intro i
    rw [nonStreamLoop_zero]
    simp
  | succ m ih =>
    intro i
    cases ha : env.attempt i with
    | okContent c =>
      rw [nonStreamLoop_content env m i c ha]
      simp
    | okNoContent =>
      rw [nonStreamLoop_nocontent env m i ha]
      simp
    | reqError =>
      cases m with
      | zero =>
        rw [nonStreamLoop_err_last env i ha]
        simp
      | succ r =>
        rw [nonStreamLoop_err_retry env r i ha]
        have h2 := ih (i + 1)
        simp [h2.1, h2.2]

theorem nonStreamLoop_incrFrom (env : LlmEnv) :
    ∀ (n i : Nat), incrFrom i (backoffs (nonStreamLoop env n i).1) = true := by
  intro n
  induction n with
  | zero =>
    intro i
    rw [nonStreamLoop_zero]
    rfl
  | succ m ih =>
    intro i
    cases ha : env.attempt i with
    | okContent c =>
      rw [nonStreamLoop_content env m i c ha]
      rfl
    | okNoContent =>
      rw [nonStreamLoop_nocontent env m i ha]
      rfl
    | reqError =>
      cases m with
      | zero =>
        rw [nonStreamLoop_err_last env i ha]
        rfl
      | succ r =>
        rw [nonStreamLoop_err_retry env r i ha]
        have h2 := ih (i + 1)
        simp only [backoffs, List.filterMap_cons] at h2 ⊢
        simp [incrFrom, h2, one_mul]

theorem nonStreamLoop_allErr (env : LlmEnv)
    (hall : ∀ j, env.attempt j = AttemptResult.reqError) :
    ∀ (n i : Nat), nonStreamLoop env n i = (allErrTrace n i, NonStreamOutcome.fallback) := by
  intro n
  induction n with
  | zero =>
    intro i
    rw [nonStreamLoop_zero]
    rfl
  | succ m ih =>
    intro i
    cases m with
    | zero =>
      rw [nonStreamLoop_err_last env i (hall i)]
      rfl
    | succ r =>
      rw [nonStreamLoop_err_retry env r i (hall i), ih (i + 1)]
      rfl

theorem allErrTrace_count : ∀ (n i : Nat), countAttempts (allErrTrace n i) = n := by
  intro n
  induction n with
  | zero =>
    intro i
    rfl
  | succ m ih =>
    intro i
    cases m with
    | zero => rfl
    | succ r =>
      have h2 := ih (i + 1)
      simp [allErrTrace, countAttempts, List.countP_cons, isAttemptStep] at h2 ⊢
      omega

theorem analyze_filing_steps_shape (env : LlmEnv) (maxA : Nat) :
    (analyze_filing env maxA).1 = (nonStreamLoop env maxA 1).1
    ∨ (analyze_filing env maxA).1 = (nonStreamLoop env maxA 1).1 ++ [LlmStep.streamAttempt]
    ∨ (analyze_filing env maxA).1 =
        (nonStreamLoop env maxA 1).1 ++ [LlmStep.streamAttempt, LlmStep.scanForJson] := by
  cases hout : (nonStreamLoop env maxA 1).2 with
  | returned a =>
    left
    simp [analyze_filing, hout]
  | raisedNonJson =>
    left
    simp [analyze_filing, hout]
  | fallback =>
    cases hsr : env.streamResult with
    | error u =>
      right; left
      simp [analyze_filing, hout, hsr]
    | ok assembled =>
      by_cases h : pyLen assembled = 0
      · right; left
        simp [analyze_filing, hout, hsr, h]
      · cases hdec : env.decode assembled with
        | some a =>
          right; left
          simp [analyze_filing, hout, hsr, h, hdec]
        | none =>
          cases hext : extract_first_json_object assembled with
          | some ex =>
            cases hdex : env.decode ex with
            | some a =>
              right; right
              simp [analyze_filing, hout, hsr, h, hdec, hext, hdex]
            | none =>
              right; right
              simp [analyze_filing, hout, hsr, h, hdec, hext, hdex]
          | none =>
            right; right
            simp [analyze_filing, hout, hsr, h, hdec, hext]

theorem analyze_filing_stream_mem (env : LlmEnv) (maxA : Nat)
    (hout : (nonStreamLoop env maxA 1).2 = NonStreamOutcome.fallback) :
    LlmStep.streamAttempt ∈ (analyze_filing env maxA).1 := by
  cases hsr : env.streamResult with
  | error u =>
    simp [analyze_filing, hout, hsr]
  | ok assembled =>
    by_cases h : pyLen assembled = 0
    · simp [analyze_filing, hout, hsr, h]
    · cases hdec : env.decode assembled with
      | some a =>
        simp [analyze_filing, hout, hsr, h, hdec]
      | none =>
        cases hext : extract_first_json_object assembled with
        | some ex =>
          cases hdex : env.decode ex with
          | some a => simp [analyze_filing, hout, hsr, h, hdec, hext, hdex]
          | none => simp [analyze_filing, hout, hsr, h, hdec, hext, hdex]
        | none =>
          simp [analyze_filing, hout, hsr, h, hdec, hext]

def envC9bad : LlmEnv :=
  ⟨fun _ => AttemptResult.okContent "not json", Except.ok "unused stream body",
   fun _ => none⟩

/-- Counterexample to C9 as stated: on the very first single-shot attempt
the wrapper receives content that fails to decode as JSON and raises at
once (the `RuntimeError` of src/llm.py:129 escapes the loop, whose
`except` clause only catches `RequestException`): no further attempt, no
streaming fallback and no balanced-object scan happen even though attempts
remained and the stream was available — so the claim that the wrapper
raises only after all those stages fail is false. -/
theorem C9_counterexample :
    (analyze_filing envC9bad OLLAMA_CALL_RETRIES).2 = Except.error LlmError.nonJsonContent
    ∧ (analyze_filing envC9bad OLLAMA_CALL_RETRIES).1 = [LlmStep.nonStreamAttempt 1]
    ∧ LlmStep.streamAttempt ∉ (analyze_filing envC9bad OLLAMA_CALL_RETRIES).1
    ∧ 1 < OLLAMA_CALL_RETRIES := by
  exact ⟨rfl, rfl, by decide, by decide⟩

/-- Claim C9 (amended): `analyze_filing` performs at most the fixed maximum
number of single-shot attempts, with strictly increasing backoff between
attempts; when every attempt raises a request error it performs exactly the
maximum number and then falls back to the streaming request; when the
assembled nonempty stream fails to decode as JSON it scans for the first
embedded balanced JSON object, returning a decode of the scanned object
when that succeeds and raising otherwise; every raise other than the
non-JSON-single-shot-content one happens only after the streaming fallback
was attempted.  Amendment forced by the counterexample: a single-shot
attempt whose content fails to decode as JSON raises immediately, without
using the remaining attempts and without the streaming fallback. -/
theorem C9_amended_retry_fallback :
    (∀ (env : LlmEnv) (maxA : Nat), countAttempts (analyze_filing env maxA).1 ≤ maxA)
    ∧ (∀ (env : LlmEnv) (maxA : Nat),
        incrFrom 1 (backoffs (analyze_filing env maxA).1) = true)
    ∧ (∀ (env : LlmEnv) (maxA : Nat), (∀ j, env.attempt j = AttemptResult.reqError) →
        nonStreamLoop env maxA 1 = (allErrTrace maxA 1, NonStreamOutcome.fallback)
        ∧ countAttempts (allErrTrace maxA 1) = maxA
        ∧ LlmStep.streamAttempt ∈ (analyze_filing env maxA).1)
    ∧ (∀ (env : LlmEnv) (maxA : Nat) (c : String), 0 < maxA →
        env.attempt 1 = AttemptResult.okContent c → env.decode c = none →
        (analyze_filing env maxA).2 = Except.error LlmError.nonJsonContent
        ∧ LlmStep.streamAttempt ∉ (analyze_filing env maxA).1
        ∧ countAttempts (analyze_filing env maxA).1 = 1)
    ∧ (∀ (env : LlmEnv) (maxA : Nat) (s : String),
        LlmStep.streamAttempt ∈ (analyze_filing env maxA).1 →
        env.streamResult = Except.ok s → pyLen s ≠ 0 → env.decode s = none →
        LlmStep.scanForJson ∈ (analyze_filing env maxA).1
        ∧ ((analyze_filing env maxA).2 = Except.error LlmError.assembledParseFailed
          ∨ ∃ (ex : String) (a : Analysis), extract_first_json_object s = some ex
              ∧ env.decode ex = some a ∧ (analyze_filing env maxA).2 = Except.ok a))
    ∧ (∀ (env : LlmEnv) (maxA : Nat) (e : LlmError),
        (analyze_filing env maxA).2 = Except.error e →
        e = LlmError.nonJsonContent ∨
          LlmStep.streamAttempt ∈ (analyze_filing env maxA).1) := by
  refine ⟨?_, ?_, ?_, ?_, ?_, ?_⟩
  · intro env maxA
    have hle := nonStreamLoop_count_le env maxA 1
    rcases analyze_filing_steps_shape env maxA with h | h | h <;> rw [h] <;>
      simp [countAttempts, List.countP_append, List.countP_cons, isAttemptStep]
        at hle ⊢ <;> omega
  · intro env maxA
    have hi := nonStreamLoop_incrFrom env maxA 1
    rcases analyze_filing_steps_shape env maxA with h | h | h <;> rw [h]
    · exact hi
    · simpa [backoffs] using hi
    · simpa [backoffs] using hi
  · intro env maxA hall
    have h3 := nonStreamLoop_allErr env hall maxA 1
    have hout : (nonStreamLoop env maxA 1).2 = NonStreamOutcome.fallback := by rw [h3]
    exact ⟨h3, allErrTrace_count maxA 1, analyze_filing_stream_mem env maxA hout⟩
  · intro env maxA c hpos h1 hdec
    obtain ⟨m, rfl⟩ : ∃ m, maxA = m + 1 := ⟨maxA - 1, by omega⟩
    have hl := nonStreamLoop_content env m 1 c h1
    have hco : contentOutcome env c = NonStreamOutcome.raisedNonJson := by
      simp [contentOutcome, hdec]
    rw [hco] at hl
    have hout : (nonStreamLoop env (m + 1) 1).2 = NonStreamOutcome.raisedNonJson := by
      rw [hl]
    have hsteps : (nonStreamLoop env (m + 1) 1).1 = [LlmStep.nonStreamAttempt 1] := by
      rw [hl]
    have ha : analyze_filing env (m + 1) =
        ([LlmStep.nonStreamAttempt 1], Except.error LlmError.nonJsonContent) := by
      simp [analyze_filing, hout, hsteps]
    rw [ha]
    exact ⟨rfl, by decide, by decide⟩
  · intro env maxA s hmem hsr hlen hdec
    have hout : (nonStreamLoop env maxA 1).2 = NonStreamOutcome.fallback := by
      cases hout2 : (nonStreamLoop env maxA 1).2 with
      | fallback => rfl
      | returned a =>
        exfalso
        have hsteps : (analyze_filing env maxA).1 = (nonStreamLoop env maxA 1).1 := by
          simp [analyze_filing, hout2]
        rw [hsteps] at hmem
        exact (nonStreamLoop_no_stream env maxA 1).1 hmem
      | raisedNonJson =>
        exfalso
        have hsteps : (analyze_filing env maxA).1 = (nonStreamLoop env maxA 1).1 := by
          simp [analyze_filing, hout2]
        rw [hsteps] at hmem
        exact (nonStreamLoop_no_stream env maxA 1).1 hmem
    cases hext : extract_first_json_object s with
    | some ex =>
      cases hdex : env.decode ex with
      | some a =>
        have ha : analyze_filing env maxA =
            ((nonStreamLoop env maxA 1).1 ++
              [LlmStep.streamAttempt, LlmStep.scanForJson], Except.ok a) := by
          simp [analyze_filing, hout, hsr, hlen, hdec, hext, hdex]
        rw [ha]
        exact ⟨by simp, Or.inr ⟨ex, a, rfl, hdex, rfl⟩⟩
      | none =>
        have ha : analyze_filing env maxA =
            ((nonStreamLoop env maxA 1).1 ++
              [LlmStep.streamAttempt, LlmStep.scanForJson],
              Except.error LlmError.assembledParseFailed) := by
          simp [analyze_filing, hout, hsr, hlen, hdec, hext, hdex]
        rw [ha]
        exact ⟨by simp, Or.inl rfl⟩
    | none =>
      have ha : analyze_filing env maxA =
          ((nonStreamLoop env maxA 1).1 ++
            [LlmStep.streamAttempt, LlmStep.scanForJson],
            Except.error LlmError.assembledParseFailed) := by
        simp [analyze_filing, hout, hsr, hlen, hdec, hext]
      rw [ha]
      exact ⟨by simp, Or.inl rfl⟩
  · intro env maxA e herr
    cases hout : (nonStreamLoop env maxA 1).2 with
    | returned a =>
      exfalso
      have ha : (analyze_filing env maxA).2 = Except.ok a := by
        simp [analyze_filing, hout]
      rw [ha] at herr
      simp at herr
    | raisedNonJson =>
      left
      have ha : (analyze_filing env maxA).2 = Except.error LlmError.nonJsonContent := by
        simp [analyze_filing, hout]
      rw [ha] at herr
      injection herr with h2
      exact h2.symm
    | fallback =>
      right
      exact analyze_filing_stream_mem env maxA hout

def envC9w : LlmEnv :=
  ⟨fun _ => AttemptResult.okContent "bad payload", Except.error (), fun _ => none⟩

/-- Concrete instance of the amended C9: undecodable single-shot content on
attempt 1 raises at once with no streaming step. -/
theorem C9_amended_retry_fallback_witness :
    (0 < OLLAMA_CALL_RETRIES
      ∧ envC9w.attempt 1 = AttemptResult.okContent "bad payload"
      ∧ envC9w.decode "bad payload" = none)
    ∧ (analyze_filing envC9w OLLAMA_CALL_RETRIES).2 = Except.error LlmError.nonJsonContent
    ∧ LlmStep.streamAttempt ∉ (analyze_filing envC9w OLLAMA_CALL_RETRIES).1 := by
  have h := C9_amended_retry_fallback.2.2.2.1 envC9w OLLAMA_CALL_RETRIES "bad payload"
    (by decide) rfl rfl
  exact ⟨⟨by decide, rfl, rfl⟩, h.1, h.2.1⟩

end InvestingAgent
